import Mathlib

/-!
Verification of the Letterboxd top-250 scraper (`main.py`).

The extraction pipeline of `scrape_letterboxd_top250` is embedded shallowly:
an HTML document is modelled by the lists of elements its two candidate
selectors return, a candidate list item by the anchors it may contain, and
Python strings by `List Char`.  The fetch step is modelled by a
`FetchOutcome` value (the upstream status code together with the parsed
document, or a transport error), and the `/api/movies` handler by a pure
function of the cache slot and the fetch outcome.
-/

namespace Scrape

/-- An `img` element inside a poster anchor: its `alt`, `data-src` and `src`
attributes (absent attributes are `none`). -/
structure Img where
  alt : Option (List Char)
  dataSrc : Option (List Char)
  src : Option (List Char)
deriving DecidableEq, Repr

/-- An anchor element (`a.poster` or `a.frame`): its `href`,
`data-film-name` and `aria-label` attributes and the `img` element it
contains, if any. -/
structure Anchor where
  href : Option (List Char)
  dataFilmName : Option (List Char)
  ariaLabel : Option (List Char)
  img : Option Img
deriving DecidableEq, Repr

/-- A candidate list item (`li.poster-container`): the result of
`li.select_one("a.poster")` and of `li.select_one("a.frame")`. -/
structure Candidate where
  posterAnchor : Option Anchor
  frameAnchor : Option Anchor
deriving DecidableEq, Repr

/-- A parsed document, given by what the two candidate selectors return:
`primary` is `soup.select("ul.poster-list li.poster-container")` and
`fallback` is `soup.select("li.poster-container")`. -/
structure Doc where
  primary : List Candidate
  fallback : List Candidate
deriving DecidableEq, Repr

/-- One extracted movie record (`main.py` lines 89-94). -/
structure MovieRecord where
  title : List Char
  year : Option (List Char)
  poster : Option (List Char)
  link : List Char
deriving DecidableEq, Repr

/-- Python `x or y` on two optional strings: `y` when `x` is `None` or the
empty string, `x` otherwise. -/
def pyOr (x y : Option (List Char)) : Option (List Char) :=
  match x with
  | some (c :: cs) => some (c :: cs)
  | _ => y

/-- Drop the longest run of characters satisfying `p` from the end of a
string. -/
def dropTail (p : Char → Bool) (l : List Char) : List Char :=
  (l.reverse.dropWhile p).reverse

/-- Drop characters satisfying `p` from both ends of a string. -/
def trimBy (p : Char → Bool) (l : List Char) : List Char :=
  dropTail p (l.dropWhile p)

/-- Python `str.strip()` (no argument): trim surrounding whitespace.  The
model covers the ASCII whitespace characters. -/
def pyStrip : List Char → List Char :=
  trimBy Char.isWhitespace

/-- Python `str.strip(") ")`: trim the characters `)` and space (exactly
those two) from both ends. -/
def stripParenSpace : List Char → List Char :=
  trimBy (fun c => c == ')' || c == ' ')

/-- Python `s.rsplit(c, 1)` when `c` occurs in `s`: split at the last
occurrence of `c`, returning the parts before and after it; `none` when `c`
does not occur. -/
def rsplitLast (c : Char) : List Char → Option (List Char × List Char)
  | [] => none
  | x :: xs =>
    match rsplitLast c xs with
    | some (a, b) => some (x :: a, b)
    | none => if x = c then some ([], xs) else none

/-- The title/year parse applied to an `img` alt string (`main.py` lines
69-75): when the string is non-empty, ends with `)` and contains `(`,
split at the last `(`, strip the part before and `strip(") ")` the part
after; otherwise the whole string is the title and there is no year. -/
def splitTitleYear (t : List Char) : List Char × Option (List Char) :=
  if t ≠ [] ∧ t.getLast? = some ')' ∧ '(' ∈ t then
    match rsplitLast '(' t with
    | some (base, yr) => (pyStrip base, some (stripParenSpace yr))
    | none => (t, none)
  else (t, none)

/-- Site host prepended to root-relative hrefs (`main.py` line 60). -/
def siteHost : List Char := "https://letterboxd.com".data

/-- Link normalization (`main.py` line 60): a root-relative href gets the
site host prepended, any other href is used verbatim. -/
def normalizeLink (href : List Char) : List Char :=
  if ['/'].isPrefixOf href then siteHost ++ href else href

/-- Poster-URL normalization (`main.py` lines 81-82): a protocol-relative
URL gets the scheme prepended, any other URL is used verbatim. -/
def normalizePoster (p : List Char) : List Char :=
  if ['/', '/'].isPrefixOf p then "https:".data ++ p else p

/-- Anchor selection in a candidate (`main.py` lines 53-57): prefer
`a.poster`, fall back to `a.frame`. -/
def anchorOf (li : Candidate) : Option Anchor :=
  match li.posterAnchor with
  | some a => some a
  | none => li.frameAnchor

/-- Title and year candidates read from the anchor's image alt text
(`main.py` lines 63-75): `none` title when there is no image or no alt
attribute. -/
def altTitleYear (a : Anchor) : Option (List Char) × Option (List Char) :=
  match a.img with
  | some im =>
    match im.alt with
    | some t => (some (splitTitleYear t).1, (splitTitleYear t).2)
    | none => (none, none)
  | none => (none, none)

/-- Poster URL of an anchor (`main.py` lines 78-82): `data-src` first,
then `src`, then normalization. -/
def posterOf (a : Anchor) : Option (List Char) :=
  match a.img with
  | some im => Option.map normalizePoster (pyOr im.dataSrc im.src)
  | none => none

/-- Final title of an anchor (`main.py` lines 84-86): the alt-derived title
when non-empty, otherwise `data-film-name` or `aria-label`. -/
def titleOf (a : Anchor) : Option (List Char) :=
  match (altTitleYear a).1 with
  | some (c :: cs) => some (c :: cs)
  | _ => pyOr a.dataFilmName a.ariaLabel

/-- Per-candidate extraction (`main.py` lines 52-94): skip the item when no
anchor or no truthy title is found, otherwise build the record. -/
def extractCandidate (li : Candidate) : Option MovieRecord :=
  match anchorOf li with
  | none => none
  | some a =>
    match titleOf a with
    | some (c :: cs) =>
      some { title := c :: cs
             year := (altTitleYear a).2
             poster := posterOf a
             link := normalizeLink (a.href.getD []) }
    | _ => none

/-- Candidate selection (`main.py` lines 48-50): the scoped selector first,
the generic one when it matches nothing. -/
def selectPosters (d : Doc) : List Candidate :=
  if d.primary ≠ [] then d.primary else d.fallback

/-- The list of records extracted from the selected candidates, in document
order (`main.py` lines 52-94). -/
def extractMovies (d : Doc) : List MovieRecord :=
  (selectPosters d).filterMap extractCandidate

/-- The dedup key of a record (`main.py` line 100). -/
def recKey (m : MovieRecord) : List Char × Option (List Char) :=
  (m.title, m.year)

/-- The dedup loop of `main.py` lines 96-108, carrying the `seen` set and
the number of records kept so far: skip seen keys, keep the record
otherwise, and stop as soon as 250 records have been kept. -/
def dedupFrom (seen : List (List Char × Option (List Char))) (n : Nat) :
    List MovieRecord → List MovieRecord
  | [] => []
  | m :: rest =>
    if recKey m ∈ seen then dedupFrom seen n rest
    else if 250 ≤ n + 1 then [m]
    else m :: dedupFrom (recKey m :: seen) (n + 1) rest

/-- Deduplicate and truncate (`main.py` lines 96-108). -/
def dedup (l : List MovieRecord) : List MovieRecord :=
  dedupFrom [] 0 l

/-- The record list the scraper produces from a parsed document. -/
def scrapeMovies (d : Doc) : List MovieRecord :=
  dedup (extractMovies d)

/-- Keep the first occurrence of each key, with no truncation.  This is the
specification-side description of the dedup pass. -/
def firstOccurFrom (seen : List (List Char × Option (List Char))) :
    List MovieRecord → List MovieRecord
  | [] => []
  | m :: rest =>
    if recKey m ∈ seen then firstOccurFrom seen rest
    else m :: firstOccurFrom (recKey m :: seen) rest

/-- First occurrence of each (title, year) key, in document order. -/
def firstOccur (l : List MovieRecord) : List MovieRecord :=
  firstOccurFrom [] l

/-- Outcome of `requests.get` (`main.py` line 35): an HTTP response with a
status code and the document its body parses to, or a raised transport
exception carrying a message. -/
inductive FetchOutcome where
  | response (status : Nat) (doc : Doc)
  | transportError (msg : List Char)
deriving DecidableEq, Repr

/-- An exception escaping the scraper: a FastAPI `HTTPException` with a
status and detail, or any other Python exception with its message. -/
inductive PyError where
  | httpException (status : Nat) (detail : List Char)
  | exn (msg : List Char)
deriving DecidableEq, Repr

/-- The body of the `/api/movies` success response. -/
structure ApiResponse where
  count : Nat
  results : List MovieRecord
deriving DecidableEq, Repr

/-- The whole scrape call (`main.py` lines 24-108): a transport error
propagates as the raised exception; a response with a status other than
200 raises `HTTPException(502, ...)` with the status in the detail; a 200
response is parsed and extracted. -/
def scrape_letterboxd_top250 : FetchOutcome → Except PyError (List MovieRecord)
  | .transportError msg => .error (.exn msg)
  | .response st d =>
    if st ≠ 200 then
      .error (.httpException 502 ("Failed to fetch source list: ".data ++ (Nat.repr st).data))
    else .ok (scrapeMovies d)

/-- What one `/api/movies` request does: the cache slot it leaves behind,
the response or error it returns, and whether it performed a fetch. -/
structure HandlerResult where
  newCache : Option (List MovieRecord)
  response : Except PyError ApiResponse
  didFetch : Bool
deriving Repr

/-- The `/api/movies` handler (`main.py` lines 116-129) as a function of
the cache slot and the fetch outcome.  The cached value is returned only
when it is truthy (a non-empty list); otherwise the scraper runs: on
success its result is stored and returned, an `HTTPException` is re-raised
unchanged, and any other exception becomes `HTTPException(500, str(e))`.
The cache slot is not written on failure. -/
def get_movies (cache : Option (List MovieRecord)) (fr : FetchOutcome) : HandlerResult :=
  match cache with
  | some (m :: ms) => ⟨some (m :: ms), .ok ⟨(m :: ms).length, m :: ms⟩, false⟩
  | _ =>
    match scrape_letterboxd_top250 fr with
    | .ok movies => ⟨some movies, .ok ⟨movies.length, movies⟩, true⟩
    | .error (.httpException s dtl) => ⟨cache, .error (.httpException s dtl), true⟩
    | .error (.exn msg) => ⟨cache, .error (.httpException 500 msg), true⟩

/-- When `rsplitLast` finds no split point, the character does not occur. -/
theorem rsplitLast_none {c : Char} : ∀ {s : List Char}, rsplitLast c s = none → c ∉ s := by
  intro s
  induction s with
  | nil => intro _ h; simp at h
  | cons x xs ih =>
    intro h
    rw [rsplitLast] at h
    cases hxs : rsplitLast c xs with
    | some p => rw [hxs] at h; simp at h
    | none =>
      rw [hxs] at h
      by_cases hx : x = c
      · simp [hx] at h
      · simp [hx] at h ⊢
        exact ⟨fun he => hx he.symm, ih hxs⟩

/-- `rsplitLast` splits at an occurrence of `c` that is the last one: the
part after the split point contains no further `c`. -/
theorem rsplitLast_sound {c : Char} :
    ∀ {s a b : List Char}, rsplitLast c s = some (a, b) → s = a ++ c :: b ∧ c ∉ b := by
  intro s
  induction s with
  | nil => intro a b h; simp [rsplitLast] at h
  | cons x xs ih =>
    intro a b h
    rw [rsplitLast] at h
    cases hxs : rsplitLast c xs with
    | some p =>
      obtain ⟨a', b'⟩ := p
      rw [hxs] at h
      simp only [Option.some.injEq, Prod.mk.injEq] at h
      obtain ⟨ha, hb⟩ := h
      obtain ⟨heq, hnot⟩ := ih hxs
      subst ha hb
      exact ⟨by simp [heq], hnot⟩
    | none =>
      rw [hxs] at h
      by_cases hx : x = c
      · rw [if_pos hx] at h
        injection h with h1
        rw [Prod.mk.injEq] at h1
        obtain ⟨ha, hb⟩ := h1
        subst hx
        rw [← ha, ← hb]
        exact ⟨by simp, rsplitLast_none hxs⟩
      · simp [hx] at h

/-- When `c` occurs in `s`, `rsplitLast` finds a split point. -/
theorem rsplitLast_isSome {c : Char} :
    ∀ {s : List Char}, c ∈ s → ∃ a b, rsplitLast c s = some (a, b) := by
  intro s
  induction s with
  | nil => intro h; simp at h
  | cons x xs ih =>
    intro _
    rw [rsplitLast]
    cases hxs : rsplitLast c xs with
    | some p => exact ⟨x :: p.1, p.2, by simp⟩
    | none =>
      have hx : x = c := by
        rename_i hmem
        rcases List.mem_cons.mp hmem with h | h
        · exact h.symm
        · exact absurd h (rsplitLast_none hxs)
      exact ⟨[], xs, by simp [hx]⟩

/-- Membership survives `dropWhile`. -/
theorem mem_of_mem_dropWhile {p : Char → Bool} {x : Char} :
    ∀ {l : List Char}, x ∈ l.dropWhile p → x ∈ l := by
  intro l
  induction l with
  | nil => intro h; simp at h
  | cons y ys ih =>
    intro h
    rw [List.dropWhile] at h
    by_cases hy : p y
    · simp only [hy] at h
      exact List.mem_cons_of_mem y (ih h)
    · simp only [Bool.not_eq_true] at hy
      simp only [hy] at h
      exact h

/-- The head of a `dropWhile` result fails the dropped predicate. -/
theorem head?_dropWhile {p : Char → Bool} {c : Char} :
    ∀ {l : List Char}, (l.dropWhile p).head? = some c → p c = false := by
  intro l
  induction l with
  | nil => intro h; simp at h
  | cons y ys ih =>
    intro h
    rw [List.dropWhile] at h
    by_cases hy : p y
    · simp only [hy] at h
      exact ih h
    · simp only [Bool.not_eq_true] at hy
      simp only [hy, List.head?] at h
      cases h
      exact hy

/-- `dropWhile` keeps a suffix of its input. -/
theorem dropWhile_isSuffix (p : Char → Bool) :
    ∀ l : List Char, l.dropWhile p <:+ l := by
  intro l
  induction l with
  | nil => simp
  | cons y ys ih =>
    rw [List.dropWhile]
    by_cases hy : p y
    · simp only [hy]
      exact ih.trans (List.suffix_cons y ys)
    · simp only [Bool.not_eq_true] at hy
      simp [hy]

/-- `dropTail` keeps a prefix of its input. -/
theorem dropTail_isPrefix (p : Char → Bool) (l : List Char) :
    dropTail p l <+: l := by
  have h := dropWhile_isSuffix p l.reverse
  have h2 : (l.reverse.dropWhile p).reverse <+: l.reverse.reverse :=
    List.reverse_prefix.mpr h
  simpa [dropTail] using h2

/-- Membership survives trimming. -/
theorem mem_of_mem_trimBy {p : Char → Bool} {x : Char} {l : List Char}
    (h : x ∈ trimBy p l) : x ∈ l := by
  have h1 : x ∈ l.dropWhile p := (dropTail_isPrefix p (l.dropWhile p)).subset h
  exact mem_of_mem_dropWhile h1

/-- The first character of a trimmed string fails the trimmed predicate. -/
theorem head?_trimBy {p : Char → Bool} {c : Char} {l : List Char}
    (h : (trimBy p l).head? = some c) : p c = false := by
  obtain ⟨t, ht⟩ := dropTail_isPrefix p (l.dropWhile p)
  apply head?_dropWhile (l := l)
  rw [← ht]
  cases hdt : dropTail p (l.dropWhile p) with
  | nil => rw [trimBy, hdt] at h; simp at h
  | cons d ds =>
    rw [trimBy, hdt] at h
    simp only [List.head?] at h
    cases h
    simp

/-- The last character of a trimmed string fails the trimmed predicate. -/
theorem getLast?_trimBy {p : Char → Bool} {c : Char} {l : List Char}
    (h : (trimBy p l).getLast? = some c) : p c = false := by
  rw [trimBy, dropTail, List.getLast?_reverse] at h
  exact head?_dropWhile h

/-- The dedup loop computes the first-occurrence subsequence truncated to
the room left under the 250 cap. -/
theorem dedupFrom_eq_take :
    ∀ (l : List MovieRecord) (seen : List (List Char × Option (List Char))) (n : Nat),
      n < 250 → dedupFrom seen n l = (firstOccurFrom seen l).take (250 - n) := by
  intro l
  induction l with
  | nil => intro seen n _; simp [dedupFrom, firstOccurFrom]
  | cons m rest ih =>
    intro seen n hn
    by_cases hk : recKey m ∈ seen
    · rw [dedupFrom, if_pos hk, firstOccurFrom, if_pos hk]
      exact ih seen n hn
    · by_cases hstop : 250 ≤ n + 1
      · have h249 : n = 249 := by omega
        subst h249
        rw [dedupFrom, if_neg hk, if_pos hstop, firstOccurFrom, if_neg hk]
        simp
      · have h1 : n + 1 < 250 := by omega
        rw [dedupFrom, if_neg hk, if_neg hstop, firstOccurFrom, if_neg hk,
          ih _ (n + 1) h1]
        rw [show 250 - n = (250 - (n + 1)) + 1 by omega]
        simp

/-- The first-occurrence pass yields a subsequence of its input. -/
theorem firstOccurFrom_sublist :
    ∀ (l : List MovieRecord) (seen : List (List Char × Option (List Char))),
      List.Sublist (firstOccurFrom seen l) l := by
  intro l
  induction l with
  | nil => intro seen; simp [firstOccurFrom]
  | cons m rest ih =>
    intro seen
    rw [firstOccurFrom]
    by_cases hk : recKey m ∈ seen
    · rw [if_pos hk]
      exact (ih seen).trans (List.sublist_cons_self m rest)
    · rw [if_neg hk]
      exact (ih _).cons₂ m

/-- No kept record carries a key from the initial seen set, and kept
records have pairwise distinct keys. -/
theorem firstOccurFrom_keys :
    ∀ (l : List MovieRecord) (seen : List (List Char × Option (List Char))),
      (∀ r ∈ firstOccurFrom seen l, recKey r ∉ seen) ∧
      (firstOccurFrom seen l).Pairwise (fun a b => recKey a ≠ recKey b) := by
  intro l
  induction l with
  | nil => intro seen; simp [firstOccurFrom]
  | cons m rest ih =>
    intro seen
    rw [firstOccurFrom]
    by_cases hk : recKey m ∈ seen
    · rw [if_pos hk]
      exact ih seen
    · rw [if_neg hk]
      obtain ⟨ihmem, ihpw⟩ := ih (recKey m :: seen)
      constructor
      · intro r hr
        rcases List.mem_cons.mp hr with h | h
        · rw [h]; exact hk
        · intro hin
          exact ihmem r h (List.mem_cons_of_mem _ hin)
      · rw [List.pairwise_cons]
        refine ⟨fun r hr => ?_, ihpw⟩
        intro heq
        exact ihmem r hr (by rw [← heq]; exact List.mem_cons_self _ _)

/-- The dedup pass is the first-occurrence subsequence cut off at 250. -/
theorem dedup_eq_take (l : List MovieRecord) :
    dedup l = (firstOccur l).take 250 :=
  dedupFrom_eq_take l [] 0 (by omega)

/-- Every record of the scraper output comes from one of the selected
candidates. -/
theorem mem_scrapeMovies {d : Doc} {r : MovieRecord} (h : r ∈ scrapeMovies d) :
    ∃ li ∈ selectPosters d, extractCandidate li = some r := by
  have h1 : r ∈ extractMovies d := by
    have hsub : List.Sublist (scrapeMovies d) (extractMovies d) := by
      rw [scrapeMovies, dedup_eq_take]
      exact (List.take_sublist _ _).trans (firstOccurFrom_sublist _ _)
    exact hsub.subset h
  rw [extractMovies] at h1
  obtain ⟨li, hli, he⟩ := List.mem_filterMap.mp h1
  exact ⟨li, hli, he⟩

/-- Structure of any record built by `extractCandidate`: the anchor exists,
the title is non-empty, the link is the normalized href, and the year is
the alt-parse year of that anchor. -/
theorem extractCandidate_some {li : Candidate} {r : MovieRecord}
    (h : extractCandidate li = some r) :
    ∃ a, anchorOf li = some a ∧ r.title ≠ [] ∧
      r.year = (altTitleYear a).2 ∧ r.poster = posterOf a ∧
      r.link = normalizeLink (a.href.getD []) := by
  cases ha : anchorOf li with
  | none => simp [extractCandidate, ha] at h
  | some a =>
    refine ⟨a, rfl, ?_⟩
    cases ht : titleOf a with
    | none => simp [extractCandidate, ha, ht] at h
    | some t =>
      cases t with
      | nil => simp [extractCandidate, ha, ht] at h
      | cons c cs =>
        have h2 : some (⟨c :: cs, (altTitleYear a).2, posterOf a,
            normalizeLink (a.href.getD [])⟩ : MovieRecord) = some r := by
          rw [← h]
          simp [extractCandidate, ha, ht]
        injection h2 with h3
        rw [← h3]
        simp

/-- A year produced by the alt parse is a `strip(") ")` of the text after
the last opening parenthesis. -/
theorem splitTitleYear_snd {t y : List Char} (h : (splitTitleYear t).2 = some y) :
    ∃ yr, '(' ∉ yr ∧ y = stripParenSpace yr := by
  rw [splitTitleYear] at h
  by_cases hc : t ≠ [] ∧ t.getLast? = some ')' ∧ '(' ∈ t
  · rw [if_pos hc] at h
    obtain ⟨a, b, hs⟩ := rsplitLast_isSome hc.2.2
    rw [hs] at h
    simp only at h
    injection h with h1
    exact ⟨b, (rsplitLast_sound hs).2, h1.symm⟩
  · rw [if_neg hc] at h
    simp at h

/-- A year carried by any anchor comes from the alt parse. -/
theorem altTitleYear_snd {a : Anchor} {y : List Char}
    (h : (altTitleYear a).2 = some y) :
    ∃ yr, '(' ∉ yr ∧ y = stripParenSpace yr := by
  cases him : a.img with
  | none => simp [altTitleYear, him] at h
  | some im =>
    cases halt : im.alt with
    | none => simp [altTitleYear, him, halt] at h
    | some t =>
      have h2 : (splitTitleYear t).2 = some y := by
        rw [← h]
        simp [altTitleYear, him, halt]
      exact splitTitleYear_snd h2

/-- The year trim as claim C1 words it: remove surrounding parentheses and
whitespace (Python `strip(") ")` removes only `)` and the space character,
so the two differ on other whitespace such as a tab). -/
def claimYearTrim : List Char → List Char :=
  trimBy (fun c => c == '(' || c == ')' || c.isWhitespace)

/-- Claim C1, counterexample: on the alt text `"A (1994\t)"` the code
yields the year `"1994\t"`, while the claim's trim of parentheses and
whitespace yields `"1994"`. -/
theorem splitTitleYear_claim_counterexample :
    (splitTitleYear "A (1994\t)".data).2 = some ['1', '9', '9', '4', '\t'] ∧
    claimYearTrim "1994\t)".data = "1994".data ∧
    (splitTitleYear "A (1994\t)".data).2 ≠ some (claimYearTrim "1994\t)".data) := by
  exact ⟨by decide, by decide, by decide⟩

/-- Claim C1 (amended): an alt string that ends with a closing parenthesis
and contains an opening parenthesis is split at the last opening
parenthesis; the title is the part before it trimmed of surrounding
whitespace, and the year is the part after it trimmed of closing
parentheses and space characters (only those two, not all whitespace).
Any string without that structure becomes the whole title with no year. -/
theorem splitTitleYear_spec (t : List Char) :
    (t ≠ [] → t.getLast? = some ')' → '(' ∈ t →
      ∃ base yr, t = base ++ '(' :: yr ∧ '(' ∉ yr ∧
        splitTitleYear t = (pyStrip base, some (stripParenSpace yr))) ∧
    (¬(t ≠ [] ∧ t.getLast? = some ')' ∧ '(' ∈ t) → splitTitleYear t = (t, none)) := by
  constructor
  · intro h1 h2 h3
    obtain ⟨a, b, hs⟩ := rsplitLast_isSome h3
    obtain ⟨heq, hnot⟩ := rsplitLast_sound hs
    refine ⟨a, b, heq, hnot, ?_⟩
    rw [show splitTitleYear t = (pyStrip a, some (stripParenSpace b)) from by
      simp only [splitTitleYear]
      rw [if_pos ⟨h1, h2, h3⟩, hs]]
  · intro h
    simp only [splitTitleYear]
    rw [if_neg h]

/-- Claim C1, witness: the round-trip example and the no-structure case at
concrete inputs. -/
theorem splitTitleYear_spec_witness :
    splitTitleYear "Movie Title".data = ("Movie Title".data, none) ∧
    splitTitleYear "Movie Title (1994)".data = ("Movie Title".data, some "1994".data) :=
  ⟨(splitTitleYear_spec "Movie Title".data).2 (by decide), by decide⟩

/-- Claim C2: the scraper output is the first-occurrence subsequence of the
per-candidate records truncated at 250 kept records; hence it has no two
records with the same (title, year) key, at most 250 entries, and keeps
document order (it is a subsequence of the per-candidate records). -/
theorem scrape_dedup_spec (d : Doc) :
    scrapeMovies d = (firstOccur (extractMovies d)).take 250 ∧
    (scrapeMovies d).length ≤ 250 ∧
    (scrapeMovies d).Pairwise (fun a b => recKey a ≠ recKey b) ∧
    List.Sublist (scrapeMovies d) (extractMovies d) := by
  have he : scrapeMovies d = (firstOccur (extractMovies d)).take 250 := by
    rw [scrapeMovies, dedup_eq_take, firstOccur]
  refine ⟨he, ?_, ?_, ?_⟩
  · rw [he]
    exact List.length_take_le _ _
  · rw [he, firstOccur]
    exact List.Pairwise.sublist (List.take_sublist _ _)
      (firstOccurFrom_keys (extractMovies d) []).2
  · rw [he, firstOccur]
    exact (List.take_sublist _ _).trans (firstOccurFrom_sublist _ _)

/-- Claim C5: every record the scraper returns has a non-empty title. -/
theorem scrape_title_nonempty (d : Doc) (r : MovieRecord)
    (hr : r ∈ scrapeMovies d) : r.title ≠ [] := by
  obtain ⟨li, _, he⟩ := mem_scrapeMovies hr
  obtain ⟨a, _, ht, _⟩ := extractCandidate_some he
  exact ht

/-- Document, candidate and record used to witness claim C5. -/
def exAnchorC5 : Anchor :=
  { href := some "/film/example/".data, dataFilmName := none, ariaLabel := none,
    img := some { alt := some "Movie Title (1994)".data,
                  dataSrc := some "//a.com/img.jpg".data, src := none } }

/-- The single-candidate document of the C5 witness. -/
def exDocC5 : Doc := ⟨[⟨some exAnchorC5, none⟩], []⟩

/-- The record the C5 witness document extracts to. -/
def exRecC5 : MovieRecord :=
  { title := "Movie Title".data, year := some "1994".data,
    poster := some "https://a.com/img.jpg".data,
    link := "https://letterboxd.com/film/example/".data }

/-- Claim C5, witness: the record extracted from a concrete document has a
non-empty title. -/
theorem scrape_title_nonempty_witness : exRecC5.title ≠ [] :=
  scrape_title_nonempty exDocC5 exRecC5 (by decide)

/-- Head and last characters of a `strip(") ")` result are neither `)` nor
a space. -/
theorem stripParenSpace_bounds (l : List Char) :
    (∀ c, (stripParenSpace l).head? = some c → c ≠ ')' ∧ c ≠ ' ') ∧
    (∀ c, (stripParenSpace l).getLast? = some c → c ≠ ')' ∧ c ≠ ' ') := by
  constructor
  · intro c hc
    have h := head?_trimBy (p := fun x => x == ')' || x == ' ') hc
    constructor <;> rintro rfl <;> simp at h
  · intro c hc
    have h := getLast?_trimBy (p := fun x => x == ')' || x == ' ') hc
    constructor <;> rintro rfl <;> simp at h

/-- Anchor and document used by the claim C6 counterexample and witness. -/
def exAnchorC6 : Anchor :=
  { href := none, dataFilmName := none, ariaLabel := none,
    img := some { alt := some "Movie (TV)".data, dataSrc := none, src := none } }

/-- The single-candidate document of the C6 counterexample. -/
def exDocC6 : Doc := ⟨[⟨some exAnchorC6, none⟩], []⟩

/-- The record the C6 document extracts to: its year is `"TV"`. -/
def exRecC6 : MovieRecord :=
  { title := "Movie".data, year := some "TV".data, poster := none, link := [] }

/-- Claim C6, counterexample: the alt text `"Movie (TV)"` produces a record
whose year is `"TV"`, which is not a four-character numeric string. -/
theorem scrape_year_counterexample :
    (scrapeMovies exDocC6).map MovieRecord.year = [some "TV".data] ∧
    ¬("TV".data.length = 4 ∧ "TV".data.all Char.isDigit = true) :=
  ⟨rfl, by decide⟩

/-- Claim C6 (amended): a present year is an arbitrary string taken from
between the parentheses: it contains no opening parenthesis and neither
starts nor ends with a closing parenthesis or a space, but it is not
checked to be four characters long or numeric. -/
theorem scrape_year_shape (d : Doc) (r : MovieRecord) (hr : r ∈ scrapeMovies d)
    (y : List Char) (hy : r.year = some y) :
    '(' ∉ y ∧ y.head? ≠ some ')' ∧ y.head? ≠ some ' ' ∧
    y.getLast? ≠ some ')' ∧ y.getLast? ≠ some ' ' := by
  obtain ⟨li, _, he⟩ := mem_scrapeMovies hr
  obtain ⟨a, _, _, hyear, _⟩ := extractCandidate_some he
  rw [hyear] at hy
  obtain ⟨yr, hyrnot, hyeq⟩ := altTitleYear_snd hy
  subst hyeq
  refine ⟨fun hmem => hyrnot (mem_of_mem_trimBy hmem), ?_, ?_, ?_, ?_⟩
  · intro hh
    exact ((stripParenSpace_bounds yr).1 ')' hh).1 rfl
  · intro hh
    exact ((stripParenSpace_bounds yr).1 ' ' hh).2 rfl
  · intro hh
    exact ((stripParenSpace_bounds yr).2 ')' hh).1 rfl
  · intro hh
    exact ((stripParenSpace_bounds yr).2 ' ' hh).2 rfl

/-- Claim C6, witness: the shape facts at the concrete record with year
`"TV"`. -/
theorem scrape_year_shape_witness :
    '(' ∉ "TV".data ∧ ("TV".data).head? ≠ some ')' ∧
    ("TV".data).head? ≠ some ' ' ∧ ("TV".data).getLast? ≠ some ')' ∧
    ("TV".data).getLast? ≠ some ' ' :=
  scrape_year_shape exDocC6 exRecC6 (by decide) "TV".data rfl

/-- Claim C3, counterexample: a 201 upstream response is a 2xx status, yet
the call fails with 502 instead of proceeding to parsing; and a transport
failure is surfaced by the handler as HTTP 500, not 502. -/
theorem fetch_claim_counterexample :
    (200 ≤ 201 ∧ 201 < 300) ∧
    scrape_letterboxd_top250 (.response 201 ⟨[], []⟩) =
      .error (.httpException 502 "Failed to fetch source list: 201".data) ∧
    (get_movies none (.transportError "connection refused".data)).response =
      .error (.httpException 500 "connection refused".data) :=
  ⟨by omega, rfl, rfl⟩

/-- Claim C3 (amended): the scrape raises the 502 bad-gateway error, with
the upstream status in its detail, exactly when the upstream status is not
200; a 200 response proceeds to parsing and extraction; a transport
failure propagates as the raised exception and the handler surfaces it as
HTTP 500 carrying the error text. -/
theorem fetch_error_classification (st : Nat) (d : Doc) (msg : List Char)
    (cache : Option (List MovieRecord)) :
    (st ≠ 200 → scrape_letterboxd_top250 (.response st d) =
      .error (.httpException 502
        ("Failed to fetch source list: ".data ++ (Nat.repr st).data))) ∧
    (st = 200 → scrape_letterboxd_top250 (.response st d) = .ok (scrapeMovies d)) ∧
    ((cache = none ∨ cache = some []) →
      get_movies cache (.transportError msg) =
        ⟨cache, .error (.httpException 500 msg), true⟩) := by
  refine ⟨?_, ?_, ?_⟩
  · intro hst
    simp [scrape_letterboxd_top250, hst]
  · intro hst
    subst hst
    simp [scrape_letterboxd_top250]
  · rintro (rfl | rfl) <;> simp [get_movies, scrape_letterboxd_top250]

/-- Claim C3, witness: a 503 upstream response yields the 502 error with
the status in the detail. -/
theorem fetch_error_classification_witness :
    scrape_letterboxd_top250 (.response 503 ⟨[], []⟩) =
      .error (.httpException 502 ("Failed to fetch source list: ".data ++ (Nat.repr 503).data)) :=
  (fetch_error_classification 503 ⟨[], []⟩ [] none).1 (by omega)

/-- Record used by the claim C4 theorems. -/
def exRecC4 : MovieRecord :=
  { title := "X".data, year := none, poster := none,
    link := "https://letterboxd.com/film/x/".data }

/-- Document whose extraction yields exactly `[exRecC4]`. -/
def exDocC4 : Doc :=
  ⟨[⟨some { href := some "/film/x/".data, dataFilmName := some "X".data,
            ariaLabel := none, img := none }, none⟩], []⟩

/-- Claim C4, counterexample: a successful extraction returning the empty
list populates the slot with `[]`, but a subsequent read does not return
the held value: it fetches again and can overwrite the slot with a
different result. -/
theorem cache_claim_counterexample :
    scrape_letterboxd_top250 (.response 200 ⟨[], []⟩) = .ok [] ∧
    (get_movies none (.response 200 ⟨[], []⟩)).newCache = some [] ∧
    (get_movies (some []) (.response 200 exDocC4)).didFetch = true ∧
    (get_movies (some []) (.response 200 exDocC4)).newCache = some [exRecC4] ∧
    ([exRecC4] : List MovieRecord) ≠ [] :=
  ⟨rfl, rfl, rfl, rfl, by decide⟩

/-- Claim C4 (amended): a read returns the held value without fetching
exactly when the held list is non-empty; when the slot is empty or holds
an empty list, the read fetches: on success it stores and returns the new
result, and on failure it leaves the slot unchanged and propagates the
failure (an HTTPException unchanged, any other exception as HTTP 500). -/
theorem cache_behavior (cache : Option (List MovieRecord)) (fr : FetchOutcome) :
    (∀ m ms, cache = some (m :: ms) →
      get_movies cache fr = ⟨cache, .ok ⟨(m :: ms).length, m :: ms⟩, false⟩) ∧
    ((cache = none ∨ cache = some []) →
      (get_movies cache fr).didFetch = true ∧
      (∀ movies, scrape_letterboxd_top250 fr = .ok movies →
        get_movies cache fr = ⟨some movies, .ok ⟨movies.length, movies⟩, true⟩) ∧
      (∀ s dtl, scrape_letterboxd_top250 fr = .error (.httpException s dtl) →
        get_movies cache fr = ⟨cache, .error (.httpException s dtl), true⟩) ∧
      (∀ m, scrape_letterboxd_top250 fr = .error (.exn m) →
        get_movies cache fr = ⟨cache, .error (.httpException 500 m), true⟩)) := by
  constructor
  · rintro m ms rfl
    simp [get_movies]
  · intro hc
    have hdid : (get_movies cache fr).didFetch = true := by
      rcases hc with rfl | rfl <;>
        cases hs : scrape_letterboxd_top250 fr with
        | ok movies => simp [get_movies, hs]
        | error e => cases e <;> simp [get_movies, hs]
    refine ⟨hdid, ?_, ?_, ?_⟩
    · intro movies hm
      rcases hc with rfl | rfl <;> simp [get_movies, hm]
    · intro s dtl hm
      rcases hc with rfl | rfl <;> simp [get_movies, hm]
    · intro m hm
      rcases hc with rfl | rfl <;> simp [get_movies, hm]

/-- Claim C4, witness: a populated non-empty slot is returned as-is with no
fetch. -/
theorem cache_behavior_witness :
    get_movies (some [exRecC4]) (.response 500 ⟨[], []⟩) =
      ⟨some [exRecC4], .ok ⟨1, [exRecC4]⟩, false⟩ :=
  (cache_behavior (some [exRecC4]) (.response 500 ⟨[], []⟩)).1 exRecC4 [] rfl

/-- Claim C7: a root-relative href is prefixed with the source site's
scheme and host, any other href is used verbatim, and a protocol-relative
poster URL is prefixed with the scheme. -/
theorem url_normalization (h p : List Char) :
    (∀ rest, h = '/' :: rest → normalizeLink h = siteHost ++ h) ∧
    (h.head? ≠ some '/' → normalizeLink h = h) ∧
    (∀ rest, p = '/' :: '/' :: rest → normalizePoster p = "https:".data ++ p) ∧
    ((∀ rest, p ≠ '/' :: '/' :: rest) → normalizePoster p = p) := by
  refine ⟨?_, ?_, ?_, ?_⟩
  · rintro rest rfl
    simp [normalizeLink, List.isPrefixOf]
  · intro hh
    cases h with
    | nil => simp [normalizeLink, List.isPrefixOf]
    | cons c cs =>
      have hc : c ≠ '/' := fun hce => hh (by rw [hce]; rfl)
      simp [normalizeLink, List.isPrefixOf, Ne.symm hc]
  · rintro rest rfl
    simp [normalizePoster, List.isPrefixOf]
  · intro hp
    cases p with
    | nil => simp [normalizePoster, List.isPrefixOf]
    | cons c cs =>
      by_cases hc : c = '/'
      · subst hc
        cases cs with
        | nil => simp [normalizePoster, List.isPrefixOf]
        | cons c2 cs2 =>
          by_cases hc2 : c2 = '/'
          · subst hc2
            exact absurd rfl (hp cs2)
          · simp [normalizePoster, List.isPrefixOf, Ne.symm hc2]
      · simp [normalizePoster, List.isPrefixOf, Ne.symm hc]

/-- Claim C7, witness: the spec's two concrete URL examples. -/
theorem url_normalization_witness :
    normalizeLink "/film/example/".data = "https://letterboxd.com/film/example/".data ∧
    normalizePoster "//a.com/img.jpg".data = "https://a.com/img.jpg".data :=
  ⟨(url_normalization "/film/example/".data []).1 "film/example/".data rfl,
   (url_normalization [] "//a.com/img.jpg".data).2.2.1 "a.com/img.jpg".data rfl⟩

/-- Claim C8: when neither selector yields candidates, the fetched document
extracts to the empty list, the call succeeds, and the handler responds
with count 0 rather than an error. -/
theorem empty_selection_ok (d : Doc) (hp : d.primary = []) (hf : d.fallback = []) :
    scrape_letterboxd_top250 (.response 200 d) = .ok [] ∧
    (get_movies none (.response 200 d)).response = .ok ⟨0, []⟩ := by
  have hmov : scrapeMovies d = [] := by
    rw [scrapeMovies, extractMovies]
    have hsel : selectPosters d = [] := by simp [selectPosters, hp, hf]
    rw [hsel]
    rfl
  constructor
  · simp [scrape_letterboxd_top250, hmov]
  · simp [get_movies, scrape_letterboxd_top250, hmov]

/-- Claim C8, witness: the empty document. -/
theorem empty_selection_ok_witness :
    scrape_letterboxd_top250 (.response 200 ⟨[], []⟩) = .ok [] ∧
    (get_movies none (.response 200 ⟨[], []⟩)).response = .ok ⟨0, []⟩ :=
  empty_selection_ok ⟨[], []⟩ rfl rfl

/-- Claim C9: an alt text that parses to an empty title but a present year,
on an anchor carrying a non-empty `data-film-name` or `aria-label`, yields
a record combining the fallback title with the year parsed from the alt
text. -/
theorem title_fallback_keeps_year (li : Candidate) (a : Anchor) (im : Img)
    (t ft y : List Char) (ha : anchorOf li = some a) (hi : a.img = some im)
    (ht : im.alt = some t) (hempty : (splitTitleYear t).1 = [])
    (hy : (splitTitleYear t).2 = some y)
    (hft : pyOr a.dataFilmName a.ariaLabel = some ft) (hne : ft ≠ []) :
    extractCandidate li =
      some { title := ft, year := some y, poster := posterOf a,
             link := normalizeLink (a.href.getD []) } := by
  have haty : altTitleYear a = (some [], some y) := by
    simp [altTitleYear, hi, ht, hempty, hy]
  have htitle : titleOf a = some ft := by
    rw [← hft]
    simp [titleOf, haty]
  cases ft with
  | nil => exact absurd rfl hne
  | cons c cs =>
    simp [extractCandidate, ha, htitle, haty]

/-- Anchor used by the claim C9 witness: alt text `"(1994)"` and a
`data-film-name` fallback title. -/
def exAnchorC9 : Anchor :=
  { href := some "/film/shawshank/".data,
    dataFilmName := some "The Shawshank Redemption".data, ariaLabel := none,
    img := some { alt := some "(1994)".data, dataSrc := none, src := none } }

/-- Claim C9, witness: the concrete candidate extracts to the fallback
title together with the year `"1994"` parsed from the alt text. -/
theorem title_fallback_keeps_year_witness :
    extractCandidate ⟨some exAnchorC9, none⟩ =
      some { title := "The Shawshank Redemption".data, year := some "1994".data,
             poster := none,
             link := "https://letterboxd.com/film/shawshank/".data } :=
  title_fallback_keeps_year ⟨some exAnchorC9, none⟩ exAnchorC9 _
    "(1994)".data "The Shawshank Redemption".data "1994".data rfl rfl rfl
    (by decide) (by decide) rfl (by decide)

/-- Claim C10: every record the scraper returns carries a (string) link:
the normalized href of its candidate's anchor, which is the empty string
when the anchor has no href attribute. -/
theorem record_link_total (d : Doc) (r : MovieRecord) (hr : r ∈ scrapeMovies d) :
    ∃ li ∈ selectPosters d, ∃ a, anchorOf li = some a ∧
      extractCandidate li = some r ∧
      r.link = normalizeLink (a.href.getD []) ∧
      (a.href = none → r.link = []) := by
  obtain ⟨li, hli, he⟩ := mem_scrapeMovies hr
  obtain ⟨a, ha, _, _, _, hlink⟩ := extractCandidate_some he
  refine ⟨li, hli, a, ha, he, hlink, ?_⟩
  intro hnone
  rw [hlink, hnone]
  rfl

/-- Document of the claim C10 witness: its only anchor has no href. -/
def exDocC10 : Doc :=
  ⟨[⟨some { href := none, dataFilmName := some "Y".data, ariaLabel := none,
            img := none }, none⟩], []⟩

/-- The record the C10 witness document extracts to: its link is the empty
string. -/
def exRecC10 : MovieRecord :=
  { title := "Y".data, year := none, poster := none, link := [] }

/-- Claim C10, witness: the concrete href-less candidate produces a record
whose link is the empty string. -/
theorem record_link_total_witness :
    ∃ li ∈ selectPosters exDocC10, ∃ a, anchorOf li = some a ∧
      extractCandidate li = some exRecC10 ∧
      exRecC10.link = normalizeLink (a.href.getD []) ∧
      (a.href = none → exRecC10.link = []) :=
  record_link_total exDocC10 exRecC10 (by decide)

end Scrape
